import Mathlib

/-!
Verification of the LoRaWAN gateway core (`Gateway.py` of LoRaEnergySim).

The gateway receives uplink packets, filters them through a sensitivity
table, keeps a bounded per-transmitter SNR history, runs the network-side
ADR heuristic, performs duty-cycle admission control on the two downlink
windows, and updates a per-channel airtime ledger.

Numbers that Python holds as floats are embedded as rationals (every
constant involved — sensitivities, required SNRs, powers — is a small
decimal, exactly representable); `np.round` is embedded by its documented
round-half-to-even rule; a Python `KeyError` / `NameError` /
`ZeroDivisionError` is an `Except.error`.
-/

namespace LoRaGW

/-- `np.round` rounds to the nearest integer, ties to the even integer. -/
def roundHalfEven (q : ℚ) : ℤ :=
  let f : ℤ := ⌊q⌋
  let frac : ℚ := q - (f : ℚ)
  if frac < 1/2 then f
  else if 1/2 < frac then f + 1
  else if f % 2 = 0 then f else f + 1

/-- `np.amax` over a (nonempty) history; for `[]` the value is irrelevant
(`adr` only calls it on a 20-element history). -/
def listMax : List ℚ → ℚ
  | [] => 0
  | x :: xs => xs.foldl max x

/-- `Gateway.SENSITIVITY = {6: -121, 7: -124, 8: -127, 9: -130, 10: -133,
11: -135, 12: -137}`; a lookup at any other key is a `KeyError` (`none`). -/
def SENSITIVITY (sf : ℤ) : Option ℚ :=
  if sf = 6 then some (-121)
  else if sf = 7 then some (-124)
  else if sf = 8 then some (-127)
  else if sf = 9 then some (-130)
  else if sf = 10 then some (-133)
  else if sf = 11 then some (-135)
  else if sf = 12 then some (-137)
  else none

/-- The `if/elif` chain assigning `adr_required_snr` in `Gateway.adr`
(lines 119-130): branches exist only for SF 7..12; for any other
spreading factor the variable stays unbound (`none`), so its use at
line 132 raises `NameError`. -/
def requiredSnr (sf : ℤ) : Option ℚ :=
  if sf = 7 then some (-15/2)
  else if sf = 8 then some (-10)
  else if sf = 9 then some (-25/2)
  else if sf = 10 then some (-15)
  else if sf = 11 then some (-35/2)
  else if sf = 12 then some (-20)
  else none

/-- `deque(maxlen=20).append`: appends on the right and, when the buffer
is full, evicts the oldest (leftmost) element. -/
def dequeAppend (xs : List ℚ) (x : ℚ) : List ℚ :=
  if xs.length < 20 then xs ++ [x] else xs.drop 1 ++ [x]

/-- `Gateway.adr` (lines 113-169), as a function of the data it reads:
the transmitter's SNR history and its current spreading factor, data
rate and transmit power, plus `LoRaParameters.ADR_MARGIN_DB` (external
configuration, passed as `margin`).  Returns `.ok none` when the history
is not full, `.error ()` for the `NameError` on a spreading factor
outside 7..12, and `.ok (some (dr, tp))` otherwise. -/
def adr (margin : ℚ) (history : List ℚ) (sf dr0 : ℤ) (tp0 : ℚ) :
    Except Unit (Option (ℤ × ℚ)) :=
  if history.length = 20 then
    let max_snr := listMax history
    match requiredSnr sf with
    | none => .error ()
    | some adr_required_snr =>
      let snr_margin := max_snr - adr_required_snr - margin
      let num_steps : ℤ := roundHalfEven (snr_margin / 3)
      let current_tx_power := tp0
      let current_dr := dr0
      if 0 < num_steps then
        let num_steps_possible_dr := 5 - current_dr
        if num_steps_possible_dr < num_steps then
          let num_steps_remaining := num_steps - num_steps_possible_dr
          let decrease_tx_power := (num_steps_remaining : ℚ) * 3
          let new_tx_power := max (current_tx_power - decrease_tx_power) 2
          .ok (some (current_dr + num_steps_possible_dr, new_tx_power))
        else
          .ok (some (current_dr + num_steps, current_tx_power))
      else if num_steps < 0 then
        let pos_steps := - num_steps
        .ok (some (current_dr, min (current_tx_power + (pos_steps : ℚ) * 3) 14))
      else
        .ok (some (current_dr, current_tx_power))
  else
    .ok none

/-- Radio parameters carried by nodes and packets (`LoRaParameters`
instance fields read by `Gateway`): frequency, spreading factor,
data-rate index and transmit power. -/
structure LoRaParam where
  freq : ℚ
  sf : ℤ
  dr : ℤ
  tp : ℚ
deriving DecidableEq

/-- An uplink packet as `Gateway` reads it: only its radio parameters. -/
structure Packet where
  lora_param : LoRaParam
deriving DecidableEq

/-- A transmitter node as `Gateway.packet_received`/`Gateway.adr` read
it: identity, location and current radio parameters. -/
structure NodeT where
  node_id : ℕ
  loc : ℚ × ℚ
  lora_param : LoRaParam

/-- The external collaborators of the gateway (spec §6): propagation
model (`prop_model.tp_to_rss`), SNR model (`snr_model.rss_to_snr`),
`Location.distance`, `LoRaPacket.time_on_air` (argument order: payload
size, frequency, spreading factor; the remaining `LoRaParameters`
constructor arguments at Gateway.py line 101 are the fixed constants
125, 5, 1, 0, 1), and the `LoRaParameters` configuration constants
`CHANNEL_DUTY_CYCLE_PROC`, `ADR_MARGIN_DB`, `RX_2_DEFAULT_SF`,
`RX_2_DEFAULT_FREQ`. -/
structure Ext where
  tp_to_rss : ℚ → ℚ → ℚ
  rss_to_snr : ℚ → ℚ
  dist : ℚ × ℚ → ℚ × ℚ → ℚ
  time_on_air : ℚ → ℚ → ℤ → ℚ
  duty_cycle_cap : ℚ → ℚ
  adr_margin : ℚ
  rx2_sf : ℤ
  rx2_freq : ℚ

/-- The gateway's mutable state (`Gateway.__init__`): location,
per-transmitter SNR history (`None` = key absent from the dict),
per-channel airtime ledger, the two reject lists and the received
counter. -/
structure GatewayState where
  gw_location : ℚ × ℚ
  packet_history : ℕ → Option (List ℚ)
  channel_time_used : ℚ → ℚ
  downlink_packets_lost : List Packet
  uplink_packet_weak : List Packet
  num_of_packet_received : ℕ

/-- `Gateway.__init__`: empty history, all channel ledgers seeded to
zero, empty reject lists, zero counter. -/
def initGateway (loc : ℚ × ℚ) : GatewayState :=
  { gw_location := loc
    packet_history := fun _ => none
    channel_time_used := fun _ => 0
    downlink_packets_lost := []
    uplink_packet_weak := []
    num_of_packet_received := 0 }

/-- The `downlink_message` dict built by `Gateway.packet_received`:
a key absent from the dict is `none`. -/
structure DownlinkMessage where
  weak_packet : Option Bool
  tx_on_rx1 : Option Bool
  lost : Option Bool
  dr : Option ℤ
  tp : Option ℚ

/-- `Gateway.check_duty_cycle` (lines 100-111), as a function of the
only state it reads: the `self.channel_time_used` ledger (`used`).
Python raises `ZeroDivisionError` when `now + time_on_air = 0` on the
nonzero-usage path; that is the only fallible step. -/
def check_duty_cycle (ext : Ext) (used : ℚ → ℚ) (payload_size : ℚ)
    (sf : ℤ) (freq : ℚ) (now : ℚ) : Except Unit (Bool × ℚ) :=
  let time_on_air := ext.time_on_air payload_size freq sf
  if used freq = 0 then
    .ok (true, time_on_air)
  else
    let on_time := used freq
    if now + time_on_air = 0 then .error ()
    else
      let new_duty_cycle := ((on_time + time_on_air) / (now + time_on_air)) * 100
      .ok (decide (new_duty_cycle ≤ ext.duty_cycle_cap freq), time_on_air)

/-- Downlink window choice (`Gateway.packet_received` lines 61-84),
returning `(tx_on_rx1, lost)`; both start out `False`. -/
def selectWindow (dr : ℤ) (possible_rx1 possible_rx2 : Bool) : Bool × Bool :=
  if 3 < dr then
    if !possible_rx1 then
      if !possible_rx2 then (false, true) else (false, false)
    else (true, false)
  else
    if !possible_rx2 then
      if !possible_rx1 then (false, true) else (true, false)
    else (false, false)

/-- Lines 41-42 of `Gateway.packet_received`: create an empty history
deque on first contact with a transmitter. -/
def ensureHistory (st : GatewayState) (i : ℕ) : GatewayState :=
  if (st.packet_history i).isSome then st
  else { st with packet_history :=
           fun j => if j = i then some [] else st.packet_history j }

/-- `Gateway.packet_received` (lines 31-98).  Errors are the Python
exceptions: `KeyError` on a spreading factor outside the sensitivity
table, the `NameError` of `adr`, `ZeroDivisionError` of
`check_duty_cycle`. -/
def packet_received (ext : Ext) (st : GatewayState) (node : NodeT)
    (packet : Packet) (now : ℚ) : Except Unit (GatewayState × DownlinkMessage) :=
  let st1 := ensureHistory st node.node_id
  let rss := ext.tp_to_rss packet.lora_param.tp (ext.dist st.gw_location node.loc)
  match SENSITIVITY packet.lora_param.sf with
  | none => .error ()
  | some sens =>
    if rss < sens then
      .ok ({ st1 with uplink_packet_weak := st1.uplink_packet_weak ++ [packet] },
           ⟨some true, none, none, none, none⟩)
    else
      let st2 := { st1 with num_of_packet_received := st1.num_of_packet_received + 1 }
      let snr := ext.rss_to_snr rss
      let hist := dequeAppend ((st2.packet_history node.node_id).getD []) snr
      let st3 := { st2 with packet_history :=
                     fun i => if i = node.node_id then some hist else st2.packet_history i }
      match adr ext.adr_margin hist node.lora_param.sf node.lora_param.dr node.lora_param.tp with
      | .error e => .error e
      | .ok adr_settings =>
        match check_duty_cycle ext st3.channel_time_used 12 packet.lora_param.sf packet.lora_param.freq now with
        | .error e => .error e
        | .ok (possible_rx1, time_on_air_rx1) =>
          match check_duty_cycle ext st3.channel_time_used 12 ext.rx2_sf ext.rx2_freq now with
          | .error e => .error e
          | .ok (possible_rx2, time_on_air_rx2) =>
            let sel := selectWindow packet.lora_param.dr possible_rx1 possible_rx2
            let tx_on_rx1 := sel.1
            let lost := sel.2
            let st4 :=
              if lost then
                { st3 with downlink_packets_lost := st3.downlink_packets_lost ++ [packet] }
              else st3
            let st5 :=
              if !lost then
                if tx_on_rx1 then
                  { st4 with channel_time_used :=
                      fun f => if f = packet.lora_param.freq
                               then st4.channel_time_used f + time_on_air_rx1
                               else st4.channel_time_used f }
                else
                  { st4 with channel_time_used :=
                      fun f => if f = ext.rx2_freq
                               then st4.channel_time_used f + time_on_air_rx2
                               else st4.channel_time_used f }
              else st4
            .ok (st5, ⟨none, some tx_on_rx1, some lost,
                       adr_settings.map Prod.fst, adr_settings.map Prod.snd⟩)

/-- The per-channel utilization computed inside `Gateway.log`
(lines 179-181): `self.channel_time_used[channel] / self.env.now`, with
no guard — Python raises `ZeroDivisionError` when `env.now = 0`. -/
def log_channel_utilization (st : GatewayState) (env_now : ℚ) (channel : ℚ) :
    Except Unit ℚ :=
  if env_now = 0 then .error ()
  else .ok (st.channel_time_used channel / env_now)

/-! ### Helper lemmas -/

lemma listMax_replicate (n : ℕ) (x : ℚ) : listMax (x :: List.replicate n x) = x := by
  induction n with
  | zero => simp [listMax]
  | succ k ih =>
    simp [List.replicate_succ, listMax] at ih ⊢
    simpa [List.foldl_cons] using ih

lemma listMax_replicate20 (x : ℚ) : listMax (List.replicate 20 x) = x := by
  have := listMax_replicate 19 x
  simpa [List.replicate_succ] using this

lemma ensureHistory_channel (st : GatewayState) (i : ℕ) :
    (ensureHistory st i).channel_time_used = st.channel_time_used := by
  simp only [ensureHistory, apply_ite GatewayState.channel_time_used, ite_self]

lemma ensureHistory_weak (st : GatewayState) (i : ℕ) :
    (ensureHistory st i).uplink_packet_weak = st.uplink_packet_weak := by
  simp only [ensureHistory, apply_ite GatewayState.uplink_packet_weak, ite_self]

lemma ensureHistory_lost (st : GatewayState) (i : ℕ) :
    (ensureHistory st i).downlink_packets_lost = st.downlink_packets_lost := by
  simp only [ensureHistory, apply_ite GatewayState.downlink_packets_lost, ite_self]

lemma ensureHistory_num (st : GatewayState) (i : ℕ) :
    (ensureHistory st i).num_of_packet_received = st.num_of_packet_received := by
  simp only [ensureHistory, apply_ite GatewayState.num_of_packet_received, ite_self]

lemma ensureHistory_gw (st : GatewayState) (i : ℕ) :
    (ensureHistory st i).gw_location = st.gw_location := by
  simp only [ensureHistory, apply_ite GatewayState.gw_location, ite_self]

lemma ensureHistory_getD (st : GatewayState) (i : ℕ) :
    ((ensureHistory st i).packet_history i).getD [] = (st.packet_history i).getD [] := by
  by_cases h : (st.packet_history i).isSome
  · simp [ensureHistory, h]
  · cases hh : st.packet_history i with
    | none => simp [ensureHistory, hh]
    | some v => simp [hh] at h

lemma ensureHistory_other (st : GatewayState) (i j : ℕ) (hij : j ≠ i) :
    (ensureHistory st i).packet_history j = st.packet_history j := by
  by_cases h : (st.packet_history i).isSome
  · simp [ensureHistory, h]
  · simp [ensureHistory, h, hij]

lemma packet_received_weak_eq (ext : Ext) (st : GatewayState) (node : NodeT)
    (packet : Packet) (now : ℚ) (sens : ℚ)
    (hsens : SENSITIVITY packet.lora_param.sf = some sens)
    (hrss : ext.tp_to_rss packet.lora_param.tp (ext.dist st.gw_location node.loc) < sens) :
    packet_received ext st node packet now =
      .ok ({ ensureHistory st node.node_id with
               uplink_packet_weak := (ensureHistory st node.node_id).uplink_packet_weak ++ [packet] },
           ⟨some true, none, none, none, none⟩) := by
  simp only [packet_received, hsens, if_pos hrss]

lemma packet_received_accepted_eq (ext : Ext) (st : GatewayState) (node : NodeT)
    (packet : Packet) (now sens : ℚ) (a : Option (ℤ × ℚ)) (b1 : Bool) (t1 : ℚ)
    (b2 : Bool) (t2 : ℚ)
    (hsens : SENSITIVITY packet.lora_param.sf = some sens)
    (hrss : ¬ ext.tp_to_rss packet.lora_param.tp (ext.dist st.gw_location node.loc) < sens)
    (ha : adr ext.adr_margin
        (dequeAppend ((st.packet_history node.node_id).getD [])
          (ext.rss_to_snr (ext.tp_to_rss packet.lora_param.tp (ext.dist st.gw_location node.loc))))
        node.lora_param.sf node.lora_param.dr node.lora_param.tp = .ok a)
    (h1 : check_duty_cycle ext st.channel_time_used 12 packet.lora_param.sf packet.lora_param.freq now = .ok (b1, t1))
    (h2 : check_duty_cycle ext st.channel_time_used 12 ext.rx2_sf ext.rx2_freq now = .ok (b2, t2)) :
    packet_received ext st node packet now = .ok
      ({ gw_location := st.gw_location
         packet_history := fun i => if i = node.node_id
           then some (dequeAppend ((st.packet_history node.node_id).getD [])
             (ext.rss_to_snr (ext.tp_to_rss packet.lora_param.tp (ext.dist st.gw_location node.loc))))
           else st.packet_history i
         channel_time_used := fun f =>
           if (selectWindow packet.lora_param.dr b1 b2).2 then st.channel_time_used f
           else if (selectWindow packet.lora_param.dr b1 b2).1 then
             (if f = packet.lora_param.freq then st.channel_time_used f + t1 else st.channel_time_used f)
           else
             (if f = ext.rx2_freq then st.channel_time_used f + t2 else st.channel_time_used f)
         downlink_packets_lost := st.downlink_packets_lost ++
           (if (selectWindow packet.lora_param.dr b1 b2).2 then [packet] else [])
         uplink_packet_weak := st.uplink_packet_weak
         num_of_packet_received := st.num_of_packet_received + 1 },
       ⟨none, some (selectWindow packet.lora_param.dr b1 b2).1,
        some (selectWindow packet.lora_param.dr b1 b2).2,
        a.map Prod.fst, a.map Prod.snd⟩) := by
  simp only [packet_received, hsens, if_neg hrss, ensureHistory_getD, ensureHistory_channel,
    ensureHistory_weak, ensureHistory_lost, ensureHistory_num, ensureHistory_gw,
    ha, h1, h2]
  have hfun : (fun i => if i = node.node_id then
        some (dequeAppend ((st.packet_history node.node_id).getD [])
          (ext.rss_to_snr (ext.tp_to_rss packet.lora_param.tp (ext.dist st.gw_location node.loc))))
      else (ensureHistory st node.node_id).packet_history i)
    = (fun i => if i = node.node_id then
        some (dequeAppend ((st.packet_history node.node_id).getD [])
          (ext.rss_to_snr (ext.tp_to_rss packet.lora_param.tp (ext.dist st.gw_location node.loc))))
      else st.packet_history i) := by
    funext i
    by_cases hi : i = node.node_id
    · simp [hi]
    · simp [hi, ensureHistory_other st node.node_id i hi]
  by_cases hl : (selectWindow packet.lora_param.dr b1 b2).2 = true
  all_goals by_cases ht : (selectWindow packet.lora_param.dr b1 b2).1 = true
  all_goals simp [hl, ht, hfun]

/-- The full-history behaviour of `adr`, as one equation: step count
from the rounded margin, then the four sign/room branches. -/
lemma adr_full_eq (margin : ℚ) (hist : List ℚ) (sf dr0 : ℤ) (tp0 req : ℚ)
    (hlen : hist.length = 20) (hreq : requiredSnr sf = some req) :
    adr margin hist sf dr0 tp0 =
      .ok (some (
        if 0 < roundHalfEven ((listMax hist - req - margin) / 3) then
          if roundHalfEven ((listMax hist - req - margin) / 3) ≤ 5 - dr0 then
            (dr0 + roundHalfEven ((listMax hist - req - margin) / 3), tp0)
          else
            (5, max (tp0 - ((roundHalfEven ((listMax hist - req - margin) / 3) - (5 - dr0) : ℤ) : ℚ) * 3) 2)
        else if roundHalfEven ((listMax hist - req - margin) / 3) < 0 then
          (dr0, min (tp0 + ((-(roundHalfEven ((listMax hist - req - margin) / 3)) : ℤ) : ℚ) * 3) 14)
        else (dr0, tp0))) := by
  set step := roundHalfEven ((listMax hist - req - margin) / 3) with hstep
  simp only [adr, hlen, hreq, ← hstep]
  by_cases h1 : 0 < step
  · by_cases h2 : step ≤ 5 - dr0
    · have h3 : ¬ (5 - dr0 < step) := by omega
      simp [h1, h2, h3]
    · have h3 : 5 - dr0 < step := by omega
      simp [h1, h2, h3]
  · by_cases h2 : step < 0
    · simp [h1, h2]
    · simp [h1, h2]

lemma foldl_dequeAppend_below_cap (samples : List ℚ) (acc : List ℚ)
    (h : acc.length + samples.length ≤ 20) :
    List.foldl dequeAppend acc samples = acc ++ samples := by
  induction samples generalizing acc with
  | nil => simp
  | cons x xs ih =>
    have hlt : acc.length < 20 := by simp at h; omega
    simp only [List.foldl_cons, dequeAppend, if_pos hlt]
    rw [ih (acc ++ [x]) (by simp at h ⊢; omega)]
    simp

lemma foldl_dequeAppend_full (samples : List ℚ) (acc : List ℚ) (h : acc.length = 20) :
    List.foldl dequeAppend acc samples = (acc ++ samples).drop samples.length := by
  induction samples generalizing acc with
  | nil => simp
  | cons x xs ih =>
    have hnlt : ¬ acc.length < 20 := by omega
    simp only [List.foldl_cons, dequeAppend, if_neg hnlt]
    rw [ih (acc.drop 1 ++ [x]) (by simp [h])]
    cases acc with
    | nil => simp at h
    | cons a t =>
      simp [List.drop_succ_cons, List.append_assoc]

lemma dequeAppend_length_le (xs : List ℚ) (x : ℚ) (h : xs.length ≤ 20) :
    (dequeAppend xs x).length ≤ 20 := by
  simp only [dequeAppend]
  split_ifs with hl
  · simp; omega
  · simp; omega

lemma packet_received_sens_none (ext : Ext) (st : GatewayState) (node : NodeT)
    (packet : Packet) (now : ℚ)
    (hsens : SENSITIVITY packet.lora_param.sf = none) :
    packet_received ext st node packet now = .error () := by
  simp only [packet_received, hsens]

lemma packet_received_adr_error (ext : Ext) (st : GatewayState) (node : NodeT)
    (packet : Packet) (now sens : ℚ) (e : Unit)
    (hsens : SENSITIVITY packet.lora_param.sf = some sens)
    (hrss : ¬ ext.tp_to_rss packet.lora_param.tp (ext.dist st.gw_location node.loc) < sens)
    (ha : adr ext.adr_margin
        (dequeAppend ((st.packet_history node.node_id).getD [])
          (ext.rss_to_snr (ext.tp_to_rss packet.lora_param.tp (ext.dist st.gw_location node.loc))))
        node.lora_param.sf node.lora_param.dr node.lora_param.tp = .error e) :
    packet_received ext st node packet now = .error e := by
  simp only [packet_received, hsens, if_neg hrss, ensureHistory_getD, ha]

lemma packet_received_dc1_error (ext : Ext) (st : GatewayState) (node : NodeT)
    (packet : Packet) (now sens : ℚ) (a : Option (ℤ × ℚ)) (e : Unit)
    (hsens : SENSITIVITY packet.lora_param.sf = some sens)
    (hrss : ¬ ext.tp_to_rss packet.lora_param.tp (ext.dist st.gw_location node.loc) < sens)
    (ha : adr ext.adr_margin
        (dequeAppend ((st.packet_history node.node_id).getD [])
          (ext.rss_to_snr (ext.tp_to_rss packet.lora_param.tp (ext.dist st.gw_location node.loc))))
        node.lora_param.sf node.lora_param.dr node.lora_param.tp = .ok a)
    (h1 : check_duty_cycle ext st.channel_time_used 12 packet.lora_param.sf packet.lora_param.freq now = .error e) :
    packet_received ext st node packet now = .error e := by
  simp only [packet_received, hsens, if_neg hrss, ensureHistory_getD, ensureHistory_channel, ha, h1]

lemma packet_received_dc2_error (ext : Ext) (st : GatewayState) (node : NodeT)
    (packet : Packet) (now sens : ℚ) (a : Option (ℤ × ℚ)) (b1 : Bool) (t1 : ℚ) (e : Unit)
    (hsens : SENSITIVITY packet.lora_param.sf = some sens)
    (hrss : ¬ ext.tp_to_rss packet.lora_param.tp (ext.dist st.gw_location node.loc) < sens)
    (ha : adr ext.adr_margin
        (dequeAppend ((st.packet_history node.node_id).getD [])
          (ext.rss_to_snr (ext.tp_to_rss packet.lora_param.tp (ext.dist st.gw_location node.loc))))
        node.lora_param.sf node.lora_param.dr node.lora_param.tp = .ok a)
    (h1 : check_duty_cycle ext st.channel_time_used 12 packet.lora_param.sf packet.lora_param.freq now = .ok (b1, t1))
    (h2 : check_duty_cycle ext st.channel_time_used 12 ext.rx2_sf ext.rx2_freq now = .error e) :
    packet_received ext st node packet now = .error e := by
  simp only [packet_received, hsens, if_neg hrss, ensureHistory_getD, ensureHistory_channel, ha, h1, h2]

lemma packet_received_history_inv (ext : Ext) (st st2 : GatewayState) (node : NodeT)
    (packet : Packet) (now : ℚ) (msg : DownlinkMessage)
    (hpr : packet_received ext st node packet now = .ok (st2, msg))
    (hinv : ∀ i, ((st.packet_history i).getD []).length ≤ 20) :
    ∀ i, ((st2.packet_history i).getD []).length ≤ 20 := by
  intro i
  cases hsens : SENSITIVITY packet.lora_param.sf with
  | none =>
    rw [packet_received_sens_none ext st node packet now hsens] at hpr
    exact absurd hpr (by simp)
  | some sens =>
    by_cases hrss : ext.tp_to_rss packet.lora_param.tp (ext.dist st.gw_location node.loc) < sens
    · rw [packet_received_weak_eq ext st node packet now sens hsens hrss] at hpr
      injection hpr with h
      injection h with h1 h2
      subst h1
      by_cases hi : i = node.node_id
      · subst hi
        simpa [ensureHistory_getD] using hinv node.node_id
      · simpa [ensureHistory_other st node.node_id i hi] using hinv i
    · cases hadr : adr ext.adr_margin
          (dequeAppend ((st.packet_history node.node_id).getD [])
            (ext.rss_to_snr (ext.tp_to_rss packet.lora_param.tp (ext.dist st.gw_location node.loc))))
          node.lora_param.sf node.lora_param.dr node.lora_param.tp with
      | error e =>
        rw [packet_received_adr_error ext st node packet now sens e hsens hrss hadr] at hpr
        exact absurd hpr (by simp)
      | ok a =>
        cases hc1 : check_duty_cycle ext st.channel_time_used 12 packet.lora_param.sf packet.lora_param.freq now with
        | error e =>
          rw [packet_received_dc1_error ext st node packet now sens a e hsens hrss hadr hc1] at hpr
          exact absurd hpr (by simp)
        | ok p1 =>
          obtain ⟨b1, t1⟩ := p1
          cases hc2 : check_duty_cycle ext st.channel_time_used 12 ext.rx2_sf ext.rx2_freq now with
          | error e =>
            rw [packet_received_dc2_error ext st node packet now sens a b1 t1 e hsens hrss hadr hc1 hc2] at hpr
            exact absurd hpr (by simp)
          | ok p2 =>
            obtain ⟨b2, t2⟩ := p2
            rw [packet_received_accepted_eq ext st node packet now sens a b1 t1 b2 t2 hsens hrss hadr hc1 hc2] at hpr
            injection hpr with h
            injection h with h1 h2
            subst h1
            by_cases hi : i = node.node_id
            · subst hi
              simp only [Option.getD_some, if_pos rfl]
              exact dequeAppend_length_le _ _ (hinv node.node_id)
            · simpa [hi] using hinv i

/-! ### C4 -/

/-- C4: on a full 20-sample history, with a spreading factor that has a
required SNR (7..12), the proposal matches the branch table: with
`step = round((max_snr - required_snr - margin)/3)` and
`room = 5 - current_dr`, a positive step within the room raises the data
rate with power unchanged; a step beyond the room saturates the data
rate at 5 and lowers power by 3 dB per remaining step with floor 2 dBm;
a negative step raises power by 3 dB per step with ceiling 14 dBm and
data rate unchanged; a zero step changes nothing. -/
theorem adr_branch_table (margin : ℚ) (hist : List ℚ) (sf dr0 : ℤ) (tp0 req : ℚ)
    (hlen : hist.length = 20) (hreq : requiredSnr sf = some req) :
    adr margin hist sf dr0 tp0 =
      .ok (some (
        let step := roundHalfEven ((listMax hist - req - margin) / 3)
        let room := 5 - dr0
        if 0 < step then
          if step ≤ room then (dr0 + step, tp0)
          else (5, max (tp0 - ((step - room : ℤ) : ℚ) * 3) 2)
        else if step < 0 then (dr0, min (tp0 + ((-step : ℤ) : ℚ) * 3) 14)
        else (dr0, tp0))) := by
  simpa using adr_full_eq margin hist sf dr0 tp0 req hlen hreq

/-- C4 witness: history of twenty −30 dB samples, spreading factor 12,
data rate 3, power 5: step count is −7, so power is raised to the 14 dBm
ceiling with data rate unchanged. -/
theorem adr_branch_table_witness :
    (List.replicate 20 (-30:ℚ)).length = 20 ∧
    requiredSnr 12 = some (-20) ∧
    adr 10 (List.replicate 20 (-30:ℚ)) 12 3 5 = .ok (some (3, 14)) := by
  refine ⟨by simp, by norm_num [requiredSnr], ?_⟩
  have h := adr_branch_table 10 (List.replicate 20 (-30:ℚ)) 12 3 5 (-20)
    (by simp) (by norm_num [requiredSnr])
  norm_num [listMax_replicate20, roundHalfEven, min_def, max_def] at h
  exact h

/-! ### C3 -/

/-- C3 (amended): for a history within the deque capacity and a
spreading factor that has a required SNR (7..12), `adr` returns the
no-data value iff the history holds fewer than 20 samples, and returns
exactly one proposal once the history holds 20 samples.  (For spreading
factors outside 7..12 a full history makes `adr` error instead — see
the SF6 counterexample.) -/
theorem adr_no_proposal_iff (margin : ℚ) (hist : List ℚ) (sf dr0 : ℤ) (tp0 req : ℚ)
    (hcap : hist.length ≤ 20) (hreq : requiredSnr sf = some req) :
    (adr margin hist sf dr0 tp0 = .ok none ↔ hist.length < 20) ∧
    (hist.length = 20 → ∃ p, adr margin hist sf dr0 tp0 = .ok (some p)) := by
  by_cases h20 : hist.length = 20
  · have h := adr_full_eq margin hist sf dr0 tp0 req h20 hreq
    refine ⟨?_, fun _ => ⟨_, h⟩⟩
    rw [h]
    simp
    omega
  · have h : adr margin hist sf dr0 tp0 = .ok none := by
      simp [adr, h20]
    rw [h]
    simp [h20]
    omega

/-- C3 witness: empty history, spreading factor 7. -/
theorem adr_no_proposal_iff_witness :
    ([] : List ℚ).length ≤ 20 ∧ requiredSnr 7 = some (-15/2) ∧
    ((adr 10 [] 7 2 14 = .ok none ↔ ([] : List ℚ).length < 20) ∧
     (([] : List ℚ).length = 20 → ∃ p, adr 10 [] 7 2 14 = .ok (some p))) :=
  ⟨by simp, by norm_num [requiredSnr],
   adr_no_proposal_iff 10 [] 7 2 14 (-15/2) (by simp) (by norm_num [requiredSnr])⟩

/-- C3 (counterexample): at spreading factor 6 with a full 20-sample
history, `adr` produces no proposal (it errors), refuting "exactly one
proposal on every call once the history length has reached 20" as
stated for every transmitter. -/
theorem adr_no_proposal_iff_cex :
    (List.replicate 20 (1:ℚ)).length = 20 ∧
    ∀ p : ℤ × ℚ, adr 10 (List.replicate 20 (1:ℚ)) 6 2 14 ≠ .ok (some p) := by
  refine ⟨by simp, fun p => ?_⟩
  norm_num [adr, requiredSnr]
  exact fun h => Except.noConfusion h

/-! ### C1 -/

/-- C1 (amended): with a full 20-sample history of maximum SNR 5 dB,
spreading factor 9 (required SNR −12.5), margin 10 dB, data rate 2 and
power 14, the margin is 7.5 and 7.5/3 = 2.5 sits exactly on a .5
boundary, so `np.round` rounds half-to-even giving step count 2; the
proposal is data rate 4 with power unchanged at 14. -/
theorem adr_endtoend_scenario2 :
    roundHalfEven ((5 - (-25/2) - 10) / 3) = 2 ∧
    adr 10 (List.replicate 20 (5:ℚ)) 9 2 14 = .ok (some (4, 14)) := by
  constructor
  · norm_num [roundHalfEven]
  · norm_num [adr, listMax_replicate20, requiredSnr, roundHalfEven]

/-- C1 (counterexample): at the very scenario of the claim — history
maximum 5 dB, spreading factor 9, margin 10 dB, data rate 2, power 14 —
the code does not propose data rate 5. -/
theorem adr_endtoend_scenario2_cex :
    (List.replicate 20 (5:ℚ)).length = 20 ∧
    listMax (List.replicate 20 (5:ℚ)) = 5 ∧
    adr 10 (List.replicate 20 (5:ℚ)) 9 2 14 ≠ .ok (some (5, 14)) := by
  refine ⟨by simp, listMax_replicate20 5, ?_⟩
  norm_num [adr, listMax_replicate20, requiredSnr, roundHalfEven]

/-! ### C10 -/

/-- C10: spreading factor 6 passes the sensitivity filter (it is in the
sensitivity table, at −121 dBm), yet `adr` on a full 20-sample history
errors for it: the required-SNR conditional chain has branches only for
spreading factors 7..12, so the variable is unbound (`NameError`). -/
theorem adr_sf6_error (margin : ℚ) (hist : List ℚ) (dr0 : ℤ) (tp0 : ℚ)
    (hlen : hist.length = 20) :
    SENSITIVITY 6 = some (-121) ∧ adr margin hist 6 dr0 tp0 = .error () := by
  constructor
  · norm_num [SENSITIVITY]
  · norm_num [adr, hlen, requiredSnr]

/-- C10 witness: concrete full history. -/
theorem adr_sf6_error_witness :
    (List.replicate 20 (0:ℚ)).length = 20 ∧
    (SENSITIVITY 6 = some (-121) ∧ adr 10 (List.replicate 20 (0:ℚ)) 6 2 14 = .error ()) :=
  ⟨by simp, adr_sf6_error 10 (List.replicate 20 0) 2 14 (by simp)⟩

/-! ### Concrete sample inputs used by witnesses -/

/-- External collaborators for the weak-packet witness: the propagation
model yields −200 dBm everywhere. -/
def wExtW : Ext := ⟨fun _ _ => -200, fun r => r + 100, fun _ _ => 1, fun _ _ _ => 1, fun _ => 1, 10, 12, 8695/10⟩

/-- A transmitter at data rate 5, spreading factor 7, 868.1 MHz, 14 dBm. -/
def wNodeW : NodeT := ⟨0, (0, 0), ⟨8681/10, 7, 5, 14⟩⟩

/-- A packet with the same radio parameters as `wNodeW`. -/
def wPacketW : Packet := ⟨⟨8681/10, 7, 5, 14⟩⟩

/-- A freshly constructed gateway. -/
def wStW : GatewayState := initGateway (0, 0)

/-- The gateway state after `wStW` rejects `wPacketW` as too weak. -/
def wStW2 : GatewayState :=
  { gw_location := (0, 0)
    packet_history := fun j => if j = 0 then some [] else none
    channel_time_used := fun _ => 0
    downlink_packets_lost := []
    uplink_packet_weak := [wPacketW]
    num_of_packet_received := 0 }

/-- External collaborators for the duty-cycle witness: airtime 2 s,
cap 1 % on every channel. -/
def wExtD : Ext := ⟨fun _ _ => -50, fun r => r + 100, fun _ _ => 1, fun _ _ _ => 2, fun _ => 1, 10, 12, 8695/10⟩

/-- A ledger with 5 s used on channel 868 and nothing elsewhere. -/
def wUsedD : ℚ → ℚ := fun f => if f = 868 then 5 else 0

/-! ### C2 -/

/-- C2: when the received strength is below the sensitivity threshold
for the packet's spreading factor, `packet_received` returns a decision
record with `weak_packet = true` and nothing else set, appends the
packet to the weak-uplink list, and performs no further processing: no
SNR sample is added to any history, the received counter is untouched,
the channel ledger is untouched, and the lost list is untouched. -/
theorem weak_packet_no_processing (ext : Ext) (st st2 : GatewayState) (node : NodeT)
    (packet : Packet) (now sens : ℚ) (msg : DownlinkMessage)
    (hsens : SENSITIVITY packet.lora_param.sf = some sens)
    (hrss : ext.tp_to_rss packet.lora_param.tp (ext.dist st.gw_location node.loc) < sens)
    (hpr : packet_received ext st node packet now = .ok (st2, msg)) :
    msg = ⟨some true, none, none, none, none⟩ ∧
    st2.uplink_packet_weak = st.uplink_packet_weak ++ [packet] ∧
    (∀ i, (st2.packet_history i).getD [] = (st.packet_history i).getD []) ∧
    st2.num_of_packet_received = st.num_of_packet_received ∧
    st2.channel_time_used = st.channel_time_used ∧
    st2.downlink_packets_lost = st.downlink_packets_lost := by
  rw [packet_received_weak_eq ext st node packet now sens hsens hrss] at hpr
  injection hpr with h
  injection h with h1 h2
  subst h1
  subst h2
  refine ⟨rfl, ?_, ?_, ?_, ?_, ?_⟩
  · simp [ensureHistory_weak]
  · intro i
    by_cases hi : i = node.node_id
    · subst hi; simp [ensureHistory_getD]
    · simp [ensureHistory_other st node.node_id i hi]
  · simp [ensureHistory_num]
  · simp [ensureHistory_channel]
  · simp [ensureHistory_lost]

/-- C2 witness: a fresh gateway and a propagation model that puts every
packet 76 dB below the SF7 threshold. -/
theorem weak_packet_no_processing_witness :
    (SENSITIVITY wPacketW.lora_param.sf = some (-124) ∧
     wExtW.tp_to_rss wPacketW.lora_param.tp (wExtW.dist wStW.gw_location wNodeW.loc) < -124 ∧
     packet_received wExtW wStW wNodeW wPacketW 0 =
       .ok (wStW2, ⟨some true, none, none, none, none⟩)) ∧
    ((⟨some true, none, none, none, none⟩ : DownlinkMessage) = ⟨some true, none, none, none, none⟩ ∧
     wStW2.uplink_packet_weak = wStW.uplink_packet_weak ++ [wPacketW] ∧
     (∀ i, (wStW2.packet_history i).getD [] = (wStW.packet_history i).getD []) ∧
     wStW2.num_of_packet_received = wStW.num_of_packet_received ∧
     wStW2.channel_time_used = wStW.channel_time_used ∧
     wStW2.downlink_packets_lost = wStW.downlink_packets_lost) := by
  have hsens : SENSITIVITY wPacketW.lora_param.sf = some (-124) := by
    norm_num [SENSITIVITY, wPacketW]
  have hrss : wExtW.tp_to_rss wPacketW.lora_param.tp
      (wExtW.dist wStW.gw_location wNodeW.loc) < -124 := by
    norm_num [wExtW, wPacketW, wStW, wNodeW, initGateway]
  have hpr : packet_received wExtW wStW wNodeW wPacketW 0 =
      .ok (wStW2, ⟨some true, none, none, none, none⟩) := by
    rw [packet_received_weak_eq wExtW wStW wNodeW wPacketW 0 (-124) hsens hrss]
    simp [ensureHistory, wStW, wStW2, wNodeW, initGateway]
  exact ⟨⟨hsens, hrss, hpr⟩,
    weak_packet_no_processing wExtW wStW wStW2 wNodeW wPacketW 0 (-124) _ hsens hrss hpr⟩

/-! ### C5 -/

/-- C5: the SNR history is a capacity-20 FIFO buffer.  (1) An append
keeps the length within 20; (2) `packet_received` preserves the
"every transmitter history has at most 20 samples" invariant;
(3) folding 21 appends from an empty buffer leaves exactly samples
2..21 in insertion order — the first sample has been evicted. -/
theorem history_bound_and_fifo :
    (∀ (xs : List ℚ) (x : ℚ), xs.length ≤ 20 → (dequeAppend xs x).length ≤ 20) ∧
    (∀ (ext : Ext) (st st2 : GatewayState) (node : NodeT) (packet : Packet)
       (now : ℚ) (msg : DownlinkMessage),
        packet_received ext st node packet now = .ok (st2, msg) →
        (∀ i, ((st.packet_history i).getD []).length ≤ 20) →
        ∀ i, ((st2.packet_history i).getD []).length ≤ 20) ∧
    (∀ samples : List ℚ, samples.length = 21 →
        List.foldl dequeAppend [] samples = samples.drop 1) := by
  refine ⟨dequeAppend_length_le, ?_, ?_⟩
  · intro ext st st2 node packet now msg hpr hinv
    exact packet_received_history_inv ext st st2 node packet now msg hpr hinv
  · intro samples hs
    have hsplit := List.take_append_drop 20 samples
    have h1 : (samples.take 20).length = 20 := by simp [hs]
    have h2 : (samples.drop 20).length = 1 := by simp [hs]
    calc List.foldl dequeAppend [] samples
        = List.foldl dequeAppend [] (samples.take 20 ++ samples.drop 20) := by rw [hsplit]
      _ = List.foldl dequeAppend (List.foldl dequeAppend [] (samples.take 20)) (samples.drop 20) := by
          rw [List.foldl_append]
      _ = List.foldl dequeAppend (samples.take 20) (samples.drop 20) := by
          rw [foldl_dequeAppend_below_cap (samples.take 20) [] (by simp [h1])]
          simp
      _ = ((samples.take 20) ++ (samples.drop 20)).drop (samples.drop 20).length :=
          foldl_dequeAppend_full _ _ h1
      _ = samples.drop 1 := by rw [hsplit, h2]

/-- C5 witness: a full 20-sample buffer stays at 20 after an append; a
weak-packet reception preserves the invariant on a fresh gateway; 21
appends of a concrete list from empty leave its tail. -/
theorem history_bound_and_fifo_witness :
    ((List.replicate 20 (1:ℚ)).length ≤ 20 ∧
     (dequeAppend (List.replicate 20 (1:ℚ)) 2).length ≤ 20) ∧
    ((List.replicate 21 (3:ℚ)).length = 21 ∧
     List.foldl dequeAppend [] (List.replicate 21 (3:ℚ)) = (List.replicate 21 (3:ℚ)).drop 1) ∧
    (packet_received wExtW wStW wNodeW wPacketW 0 =
       .ok (wStW2, ⟨some true, none, none, none, none⟩) ∧
     (∀ i, ((wStW.packet_history i).getD []).length ≤ 20) ∧
     (∀ i, ((wStW2.packet_history i).getD []).length ≤ 20)) := by
  refine ⟨⟨by simp, history_bound_and_fifo.1 _ _ (by simp)⟩,
          ⟨by simp, history_bound_and_fifo.2.2 _ (by simp)⟩, ?_⟩
  have hsens : SENSITIVITY wPacketW.lora_param.sf = some (-124) := by
    norm_num [SENSITIVITY, wPacketW]
  have hrss : wExtW.tp_to_rss wPacketW.lora_param.tp
      (wExtW.dist wStW.gw_location wNodeW.loc) < -124 := by
    norm_num [wExtW, wPacketW, wStW, wNodeW, initGateway]
  have hpr : packet_received wExtW wStW wNodeW wPacketW 0 =
      .ok (wStW2, ⟨some true, none, none, none, none⟩) := by
    rw [packet_received_weak_eq wExtW wStW wNodeW wPacketW 0 (-124) hsens hrss]
    simp [ensureHistory, wStW, wStW2, wNodeW, initGateway]
  have hinv : ∀ i, ((wStW.packet_history i).getD []).length ≤ 20 := by
    intro i; simp [wStW, initGateway]
  exact ⟨hpr, hinv,
    history_bound_and_fifo.2.1 wExtW wStW wStW2 wNodeW wPacketW 0 _ hpr hinv⟩

/-! ### C6 -/

/-- C6: with a positive airtime and a nonnegative clock, the duty-cycle
check trivially admits a channel whose cumulative used time is zero
(whatever `now` is), and otherwise admits exactly when the prospective
ratio `(used + time_on_air) / (now + time_on_air) × 100` does not exceed
the channel's configured cap. -/
theorem check_duty_cycle_spec (ext : Ext) (used : ℚ → ℚ) (p : ℚ) (sf : ℤ)
    (freq now : ℚ)
    (htoa : 0 < ext.time_on_air p freq sf) (hnow : 0 ≤ now) :
    (used freq = 0 →
       check_duty_cycle ext used p sf freq now = .ok (true, ext.time_on_air p freq sf)) ∧
    (used freq ≠ 0 → ∃ b,
       check_duty_cycle ext used p sf freq now = .ok (b, ext.time_on_air p freq sf) ∧
       (b = true ↔
         (used freq + ext.time_on_air p freq sf) / (now + ext.time_on_air p freq sf) * 100
           ≤ ext.duty_cycle_cap freq)) := by
  have hden : ¬ now + ext.time_on_air p freq sf = 0 := by positivity
  constructor
  · intro h
    simp [check_duty_cycle, h]
  · intro h
    refine ⟨decide ((used freq + ext.time_on_air p freq sf) /
        (now + ext.time_on_air p freq sf) * 100 ≤ ext.duty_cycle_cap freq), ?_, ?_⟩
    · simp [check_duty_cycle, h, hden]
    · simp

/-- C6 witness (end-to-end scenario 3 of the spec): cap 1 %, `now` =
1000 s, used = 5 s, airtime 2 s gives a prospective ratio of 700/1002 %,
admissible; and a channel with zero used time passes trivially. -/
theorem check_duty_cycle_spec_witness :
    (0 < wExtD.time_on_air 12 868 7 ∧ 0 ≤ (1000:ℚ)) ∧
    ((wUsedD 868 = 0 →
        check_duty_cycle wExtD wUsedD 12 7 868 1000 = .ok (true, wExtD.time_on_air 12 868 7)) ∧
     (wUsedD 868 ≠ 0 → ∃ b,
        check_duty_cycle wExtD wUsedD 12 7 868 1000 = .ok (b, wExtD.time_on_air 12 868 7) ∧
        (b = true ↔
          (wUsedD 868 + wExtD.time_on_air 12 868 7) / (1000 + wExtD.time_on_air 12 868 7) * 100
            ≤ wExtD.duty_cycle_cap 868))) := by
  refine ⟨⟨by norm_num [wExtD], by norm_num⟩, ?_⟩
  exact check_duty_cycle_spec wExtD wUsedD 12 7 868 1000 (by norm_num [wExtD]) (by norm_num)

/-! ### C9 -/

/-- C9: `Gateway.log` divides each channel's used airtime by `env.now`
with no zero guard; at zero elapsed simulated time the per-channel
utilization computation is a `ZeroDivisionError` (here `.error ()`),
contradicting the requirement that reporting guard the zero-elapsed-time
denominator. -/
theorem log_division_by_zero_at_time_zero :
    log_channel_utilization (initGateway (0, 0)) 0 (8681/10) = .error () := by
  simp [log_channel_utilization]

/-! ### C7 and C8 -/

def wExtA : Ext := ⟨fun _ _ => -50, fun r => r + 100, fun _ _ => 1, fun _ _ _ => 1, fun _ => 1, 10, 12, 8695/10⟩

def wStA2 : GatewayState :=
  { gw_location := (0, 0)
    packet_history := fun i => if i = 0 then some [50] else none
    channel_time_used := fun f => if f = 8681/10 then 1 else 0
    downlink_packets_lost := []
    uplink_packet_weak := []
    num_of_packet_received := 1 }

def wMsgA : DownlinkMessage := ⟨none, some true, some false, none, none⟩

lemma wAccepted_hsens : SENSITIVITY wPacketW.lora_param.sf = some (-124) := by
  norm_num [SENSITIVITY, wPacketW]

lemma wAccepted_hrss :
    ¬ wExtA.tp_to_rss wPacketW.lora_param.tp (wExtA.dist wStW.gw_location wNodeW.loc) < -124 := by
  norm_num [wExtA, wPacketW, wStW, wNodeW, initGateway]

lemma wAccepted_ha : adr wExtA.adr_margin
    (dequeAppend ((wStW.packet_history wNodeW.node_id).getD [])
      (wExtA.rss_to_snr (wExtA.tp_to_rss wPacketW.lora_param.tp (wExtA.dist wStW.gw_location wNodeW.loc))))
    wNodeW.lora_param.sf wNodeW.lora_param.dr wNodeW.lora_param.tp = .ok none := by
  norm_num [adr, dequeAppend, wExtA, wNodeW, wStW, initGateway, wPacketW]

lemma wAccepted_h1 : check_duty_cycle wExtA wStW.channel_time_used 12
    wPacketW.lora_param.sf wPacketW.lora_param.freq 0 = .ok (true, 1) := by
  norm_num [check_duty_cycle, wExtA, wStW, initGateway, wPacketW]

lemma wAccepted_h2 : check_duty_cycle wExtA wStW.channel_time_used 12
    wExtA.rx2_sf wExtA.rx2_freq 0 = .ok (true, 1) := by
  norm_num [check_duty_cycle, wExtA, wStW, initGateway]

lemma wAccepted_hpr : packet_received wExtA wStW wNodeW wPacketW 0 = .ok (wStA2, wMsgA) := by
  rw [packet_received_accepted_eq wExtA wStW wNodeW wPacketW 0 (-124) none true 1 true 1
      wAccepted_hsens wAccepted_hrss wAccepted_ha wAccepted_h1 wAccepted_h2]
  norm_num [selectWindow, wExtA, wNodeW, wPacketW, wStW, wStA2, wMsgA, initGateway, dequeAppend]

/-- C7: the channel ledger changes only as the downlink decision
dictates (`check_duty_cycle` itself is pure — it takes the ledger and
returns only a verdict and an airtime): on a lost decision the ledger is
unchanged; on a non-lost decision exactly the chosen window's channel
entry grows by that window's computed airtime, every other entry
unchanged. -/
theorem ledger_only_chosen_window (ext : Ext) (st st2 : GatewayState) (node : NodeT)
    (packet : Packet) (now sens : ℚ) (a : Option (ℤ × ℚ)) (b1 : Bool) (t1 : ℚ)
    (b2 : Bool) (t2 : ℚ) (msg : DownlinkMessage)
    (hsens : SENSITIVITY packet.lora_param.sf = some sens)
    (hrss : ¬ ext.tp_to_rss packet.lora_param.tp (ext.dist st.gw_location node.loc) < sens)
    (ha : adr ext.adr_margin
        (dequeAppend ((st.packet_history node.node_id).getD [])
          (ext.rss_to_snr (ext.tp_to_rss packet.lora_param.tp (ext.dist st.gw_location node.loc))))
        node.lora_param.sf node.lora_param.dr node.lora_param.tp = .ok a)
    (h1 : check_duty_cycle ext st.channel_time_used 12 packet.lora_param.sf packet.lora_param.freq now = .ok (b1, t1))
    (h2 : check_duty_cycle ext st.channel_time_used 12 ext.rx2_sf ext.rx2_freq now = .ok (b2, t2))
    (hpr : packet_received ext st node packet now = .ok (st2, msg)) :
    (msg.lost = some true → st2.channel_time_used = st.channel_time_used) ∧
    (msg.lost = some false → msg.tx_on_rx1 = some true →
       st2.channel_time_used packet.lora_param.freq
         = st.channel_time_used packet.lora_param.freq + t1 ∧
       ∀ f, f ≠ packet.lora_param.freq →
         st2.channel_time_used f = st.channel_time_used f) ∧
    (msg.lost = some false → msg.tx_on_rx1 = some false →
       st2.channel_time_used ext.rx2_freq = st.channel_time_used ext.rx2_freq + t2 ∧
       ∀ f, f ≠ ext.rx2_freq →
         st2.channel_time_used f = st.channel_time_used f) := by
  rw [packet_received_accepted_eq ext st node packet now sens a b1 t1 b2 t2
      hsens hrss ha h1 h2] at hpr
  injection hpr with h
  injection h with hst hmsg
  subst hst
  subst hmsg
  refine ⟨?_, ?_, ?_⟩
  · intro hl
    have hl' : (selectWindow packet.lora_param.dr b1 b2).2 = true := by simpa using hl
    funext f
    simp [hl']
  · intro hl ht
    have hl' : (selectWindow packet.lora_param.dr b1 b2).2 = false := by simpa using hl
    have ht' : (selectWindow packet.lora_param.dr b1 b2).1 = true := by simpa using ht
    constructor
    · simp [hl', ht']
    · intro f hf
      simp [hl', ht', hf]
  · intro hl ht
    have hl' : (selectWindow packet.lora_param.dr b1 b2).2 = false := by simpa using hl
    have ht' : (selectWindow packet.lora_param.dr b1 b2).1 = false := by simpa using ht
    constructor
    · simp [hl', ht']
    · intro f hf
      simp [hl', ht', hf]

/-- C8: downlink window precedence.  When the uplink data-rate index is
above 3 the gateway picks RX1 if admissible, falls back to RX2, and
declares the downlink lost when neither window is admissible, appending
the packet to the lost list; at data rate 3 or below the preference
order of the two windows is swapped. -/
theorem downlink_window_precedence (ext : Ext) (st st2 : GatewayState) (node : NodeT)
    (packet : Packet) (now sens : ℚ) (a : Option (ℤ × ℚ)) (b1 : Bool) (t1 : ℚ)
    (b2 : Bool) (t2 : ℚ) (msg : DownlinkMessage)
    (hsens : SENSITIVITY packet.lora_param.sf = some sens)
    (hrss : ¬ ext.tp_to_rss packet.lora_param.tp (ext.dist st.gw_location node.loc) < sens)
    (ha : adr ext.adr_margin
        (dequeAppend ((st.packet_history node.node_id).getD [])
          (ext.rss_to_snr (ext.tp_to_rss packet.lora_param.tp (ext.dist st.gw_location node.loc))))
        node.lora_param.sf node.lora_param.dr node.lora_param.tp = .ok a)
    (h1 : check_duty_cycle ext st.channel_time_used 12 packet.lora_param.sf packet.lora_param.freq now = .ok (b1, t1))
    (h2 : check_duty_cycle ext st.channel_time_used 12 ext.rx2_sf ext.rx2_freq now = .ok (b2, t2))
    (hpr : packet_received ext st node packet now = .ok (st2, msg)) :
    (3 < packet.lora_param.dr →
       (b1 = true → msg.tx_on_rx1 = some true ∧ msg.lost = some false) ∧
       (b1 = false → b2 = true → msg.tx_on_rx1 = some false ∧ msg.lost = some false) ∧
       (b1 = false → b2 = false → msg.lost = some true ∧
          st2.downlink_packets_lost = st.downlink_packets_lost ++ [packet])) ∧
    (packet.lora_param.dr ≤ 3 →
       (b2 = true → msg.tx_on_rx1 = some false ∧ msg.lost = some false) ∧
       (b2 = false → b1 = true → msg.tx_on_rx1 = some true ∧ msg.lost = some false) ∧
       (b2 = false → b1 = false → msg.lost = some true ∧
          st2.downlink_packets_lost = st.downlink_packets_lost ++ [packet])) := by
  rw [packet_received_accepted_eq ext st node packet now sens a b1 t1 b2 t2
      hsens hrss ha h1 h2] at hpr
  injection hpr with h
  injection h with hst hmsg
  subst hst
  subst hmsg
  constructor
  · intro hdr
    refine ⟨?_, ?_, ?_⟩
    · intro hb1
      subst hb1
      simp [selectWindow, hdr]
    · intro hb1 hb2
      subst hb1
      subst hb2
      simp [selectWindow, hdr]
    · intro hb1 hb2
      subst hb1
      subst hb2
      simp [selectWindow, hdr]
  · intro hdr
    have hdr' : ¬ 3 < packet.lora_param.dr := by omega
    refine ⟨?_, ?_, ?_⟩
    · intro hb2
      subst hb2
      simp [selectWindow, hdr']
    · intro hb2 hb1
      subst hb1
      subst hb2
      simp [selectWindow, hdr']
    · intro hb1 hb2
      subst hb1
      subst hb2
      simp [selectWindow, hdr']

/-- C7 witness: fresh gateway, strong signal, both windows admissible,
data rate 5: RX1 is chosen and only the uplink channel's ledger grows,
by the RX1 airtime. -/
theorem ledger_only_chosen_window_witness :
    (SENSITIVITY wPacketW.lora_param.sf = some (-124) ∧
     ¬ wExtA.tp_to_rss wPacketW.lora_param.tp (wExtA.dist wStW.gw_location wNodeW.loc) < -124 ∧
     packet_received wExtA wStW wNodeW wPacketW 0 = .ok (wStA2, wMsgA)) ∧
    ((wMsgA.lost = some true → wStA2.channel_time_used = wStW.channel_time_used) ∧
     (wMsgA.lost = some false → wMsgA.tx_on_rx1 = some true →
        wStA2.channel_time_used wPacketW.lora_param.freq
          = wStW.channel_time_used wPacketW.lora_param.freq + 1 ∧
        ∀ f, f ≠ wPacketW.lora_param.freq →
          wStA2.channel_time_used f = wStW.channel_time_used f) ∧
     (wMsgA.lost = some false → wMsgA.tx_on_rx1 = some false →
        wStA2.channel_time_used wExtA.rx2_freq = wStW.channel_time_used wExtA.rx2_freq + 1 ∧
        ∀ f, f ≠ wExtA.rx2_freq →
          wStA2.channel_time_used f = wStW.channel_time_used f)) :=
  ⟨⟨wAccepted_hsens, wAccepted_hrss, wAccepted_hpr⟩,
   ledger_only_chosen_window wExtA wStW wStA2 wNodeW wPacketW 0 (-124) none true 1 true 1 wMsgA
     wAccepted_hsens wAccepted_hrss wAccepted_ha wAccepted_h1 wAccepted_h2 wAccepted_hpr⟩

/-- C8 witness: same scenario; data rate 5 is above 3 and RX1 is
admissible, so the decision is RX1, not lost. -/
theorem downlink_window_precedence_witness :
    (SENSITIVITY wPacketW.lora_param.sf = some (-124) ∧
     ¬ wExtA.tp_to_rss wPacketW.lora_param.tp (wExtA.dist wStW.gw_location wNodeW.loc) < -124 ∧
     packet_received wExtA wStW wNodeW wPacketW 0 = .ok (wStA2, wMsgA)) ∧
    ((3 < wPacketW.lora_param.dr →
       (true = true → wMsgA.tx_on_rx1 = some true ∧ wMsgA.lost = some false) ∧
       (true = false → true = true → wMsgA.tx_on_rx1 = some false ∧ wMsgA.lost = some false) ∧
       (true = false → true = false → wMsgA.lost = some true ∧
          wStA2.downlink_packets_lost = wStW.downlink_packets_lost ++ [wPacketW])) ∧
     (wPacketW.lora_param.dr ≤ 3 →
       (true = true → wMsgA.tx_on_rx1 = some false ∧ wMsgA.lost = some false) ∧
       (true = false → true = true → wMsgA.tx_on_rx1 = some true ∧ wMsgA.lost = some false) ∧
       (true = false → true = false → wMsgA.lost = some true ∧
          wStA2.downlink_packets_lost = wStW.downlink_packets_lost ++ [wPacketW]))) :=
  ⟨⟨wAccepted_hsens, wAccepted_hrss, wAccepted_hpr⟩,
   downlink_window_precedence wExtA wStW wStA2 wNodeW wPacketW 0 (-124) none true 1 true 1 wMsgA
     wAccepted_hsens wAccepted_hrss wAccepted_ha wAccepted_h1 wAccepted_h2 wAccepted_hpr⟩

end LoRaGW
